import Mathlib

/-!
Verification of the Yabl button/gesture engine (src/src/Yabl.h).

Shallow embedding of the `Yabl::Button` class from `src/src/Yabl.h`
(Yet Another Button Library).  The header defines the event constants,
the full button state (configuration, event bitmasks, callback table)
and gives inline bodies for the accessors, the setters and `sleep()`.
The bodies of `update()`, `reset()`, `triggerEvent()` and the two
`callback(...)` registration overloads live in `Yabl.cpp`, which is not
part of the sources; those are modelled from the specification and are
marked as such in their doc comments.

`Event` is the C++ `uint16_t`; event values stay below `2 ^ 16`, and the
claims analysed here never overflow, so `Nat` with bitwise operations is
a faithful carrier.
-/

set_option maxHeartbeats 1000000

namespace Yabl

/-- `typedef uint16_t Event` (src/src/Yabl.h:28). -/
abbrev Event := Nat

/-- `static constexpr Event PRESS = 0x01` (src/src/Yabl.h:31). -/
def PRESS : Event := 0x01

/-- `static constexpr Event RELEASE = 0x02` (src/src/Yabl.h:33). -/
def RELEASE : Event := 0x02

/-- `static constexpr Event SHORT_RELEASE = 0x04` (src/src/Yabl.h:35). -/
def SHORT_RELEASE : Event := 0x04

/-- `static constexpr Event SINGLE_TAP = 0x08` (src/src/Yabl.h:37). -/
def SINGLE_TAP : Event := 0x08

/-- `static constexpr Event DOUBLE_TAP = 0x10` (src/src/Yabl.h:39). -/
def DOUBLE_TAP : Event := 0x10

/-- `static constexpr Event HOLD = 0x20` (src/src/Yabl.h:41). -/
def HOLD : Event := 0x20

/-- `static constexpr Event LONG_RELEASE = 0x40` (src/src/Yabl.h:43). -/
def LONG_RELEASE : Event := 0x40

/-- `static constexpr Event USER_EVENT = 0x100` (src/src/Yabl.h:45). -/
def USER_EVENT : Event := 0x100

/-- `static constexpr Event ALL_EVENTS = 0xFFFF` (src/src/Yabl.h:47). -/
def ALL_EVENTS : Event := 0xFFFF

/-- One slot of the callback table: `Button::Callback`
(src/src/Yabl.h:292-303) is a tag (`NONE`, `SIMPLE`, `WITH_EVENT_INFO`)
plus a union of the two function-pointer shapes; the function pointers
themselves are modelled as abstract numeric ids. -/
inductive Callback where
  | none
  | simple (id : Nat)
  | withEventInfo (id : Nat)

/-- `static constexpr int EVENT_COUNT = sizeof(Event) * 8`
(src/src/Yabl.h:308); `sizeof(uint16_t) = 2`. -/
def EVENT_COUNT : Nat := 2 * 8

/-- The state of one `Button` instance (private fields of `Button`,
src/src/Yabl.h:310-317), plus `prevLevel`, the debounced raw input level
as remembered by the `Bounce` base class after the latest `update()`
(what `read()` returns).  Field defaults are the initializers from the
header. -/
structure Button where
  inverted : Bool := true
  holdDuration : Nat := 400
  doubleTapInterval : Nat := 150
  prevLevel : Bool := true
  currentEvents : Event := 0
  gestureEvents : Event := 0
  suppressEvents : Event := 0
  callbacks : List Callback := List.replicate EVENT_COUNT Callback.none

/-- A freshly constructed `Button` (all default member initializers). -/
def initButton : Button := {}

/-- `bool down() { return read() != _inverted; }` (src/src/Yabl.h:135). -/
def down (b : Button) : Bool := b.prevLevel != b.inverted

/-- `bool activity() const { return _currentEvents != 0; }`
(src/src/Yabl.h:153). -/
def activity (b : Button) : Bool := b.currentEvents != 0

/-- `bool triggered(Event events) const { return _currentEvents & events; }`
(src/src/Yabl.h:160); the C++ implicit conversion to `bool` is "nonzero". -/
def triggered (b : Button) (events : Event) : Bool := b.currentEvents &&& events != 0

/-- `bool gestureStarted() const { return _gestureEvents != 0; }`
(src/src/Yabl.h:168). -/
def gestureStarted (b : Button) : Bool := b.gestureEvents != 0

/-- `bool gestureIncludes(Event events) const { return _gestureEvents & events; }`
(src/src/Yabl.h:175). -/
def gestureIncludes (b : Button) (events : Event) : Bool := b.gestureEvents &&& events != 0

/-- `void suppressOnce(Event events) { _suppressEvents |= events; }`
(src/src/Yabl.h:184). -/
def suppressOnce (b : Button) (events : Event) : Button :=
  { b with suppressEvents := b.suppressEvents ||| events }

/-- `void holdDuration(unsigned int ms) { _holdDuration = ms; }`
(src/src/Yabl.h:190): a plain assignment, no validation. -/
def setHoldDuration (b : Button) (ms : Nat) : Button := { b with holdDuration := ms }

/-- `void doubleTapInterval(unsigned int ms) { _doubleTapInterval = ms; }`
(src/src/Yabl.h:197): a plain assignment, no validation. -/
def setDoubleTapInterval (b : Button) (ms : Nat) : Button :=
  { b with doubleTapInterval := ms }

/-- `void inverted(bool inverted) { _inverted = inverted; }` (src/src/Yabl.h:207). -/
def setInverted (b : Button) (i : Bool) : Button := { b with inverted := i }

/-- Modelled from the spec: the body of `Button::reset` is in `Yabl.cpp`,
which is not under src/ (the header only declares it, src/src/Yabl.h:115).
Spec: "`reset()`: clears currentEvents, gestureEvents, suppressEvents;
does not alter configuration (inversion, durations, callbacks)." -/
def reset (b : Button) : Button :=
  { b with currentEvents := 0, gestureEvents := 0, suppressEvents := 0 }

/-- `void sleep() { reset(); }` (src/src/Yabl.h:125) — the body is inline
in the header. -/
def sleep (b : Button) : Button := reset b

/-- Modelled from the spec: `Button::triggerEvent` is declared at
src/src/Yabl.h:283 ("Sets the current event, adds it to the current
gesture and fires a callback") but its body is in `Yabl.cpp`, not under
src/.  Spec: suppressed bits "are excluded from both `currentEvents` and
`gestureEvents`"; callback invocation is a side effect with no bearing on
the state fields. -/
def triggerEvent (b : Button) (e : Event) : Button :=
  if b.suppressEvents &&& e = 0 then
    { b with currentEvents := b.currentEvents ||| e, gestureEvents := b.gestureEvents ||| e }
  else b

/-- Modelled from the spec: the body of `Button::update` is in `Yabl.cpp`,
which is not under src/ (the header only declares it, src/src/Yabl.h:109).
One update cycle, per spec §4.2, driven by the debounced collaborator's
readings: `level` is the stable raw level and `elapsed` the time since it
last flipped.  `currentEvents` is recomputed from scratch; on a press
transition PRESS fires, plus DOUBLE_TAP when the open gesture already
holds SHORT_RELEASE; on a release transition RELEASE fires plus
LONG_RELEASE (if the gesture reached HOLD, closing the gesture) or else
SHORT_RELEASE; with no transition, the first held cycle with
`elapsed ≥ holdDuration` fires HOLD once, and a released cycle with an
open short-release gesture and `elapsed ≥ doubleTapInterval` fires
SINGLE_TAP and closes the gesture.  Closing a gesture consumes the
suppression mask. -/
def update (b : Button) (level : Bool) (elapsed : Nat) : Button :=
  let changed := level != b.prevLevel
  let isDown := level != b.inverted
  let b0 : Button := { b with currentEvents := 0, prevLevel := level }
  let b1 : Button :=
    if changed then
      if isDown then
        let bp := triggerEvent b0 PRESS
        if b.gestureEvents &&& SHORT_RELEASE ≠ 0 then triggerEvent bp DOUBLE_TAP else bp
      else
        let br := triggerEvent b0 RELEASE
        if b.gestureEvents &&& HOLD ≠ 0 then triggerEvent br LONG_RELEASE
        else triggerEvent br SHORT_RELEASE
    else if isDown then
      if b.gestureEvents &&& HOLD = 0 ∧ b.holdDuration ≤ elapsed then triggerEvent b0 HOLD
      else b0
    else
      if b.gestureEvents &&& SHORT_RELEASE ≠ 0 ∧ b.doubleTapInterval ≤ elapsed then
        triggerEvent b0 SINGLE_TAP
      else b0
  if (changed = true ∧ isDown = false ∧ b.gestureEvents &&& HOLD ≠ 0) ∨
      (changed = false ∧ isDown = false ∧ b.gestureEvents &&& SHORT_RELEASE ≠ 0 ∧
        b.doubleTapInterval ≤ elapsed) then
    { b1 with gestureEvents := 0, suppressEvents := 0 }
  else b1

/-- One poll while the button is physically held down: the raw level that
means "pressed" is the negation of `inverted` (src/src/Yabl.h:135). -/
def holdPoll (b : Button) (t : Nat) : Button := update b (!b.inverted) t

/-- One poll while the button is physically up: the raw level that means
"released" equals `inverted` (src/src/Yabl.h:135). -/
def releasePoll (b : Button) (t : Nat) : Button := update b b.inverted t

/-- A run of polls with the button held down, one elapsed time per poll. -/
def runHeld (b : Button) (ts : List Nat) : Button := ts.foldl holdPoll b

/-- A run of polls with the button up, one elapsed time per poll. -/
def runReleased (b : Button) (ts : List Nat) : Button := ts.foldl releasePoll b

/-- Modelled from the spec: the bodies of the two `Button::callback`
registration overloads (declared src/src/Yabl.h:235 and 272) are in
`Yabl.cpp`, not under src/.  Spec: "registers `fn` against each bit set
in `forEvents` ... Registering a new callback for a bit overwrites the
previous registration for that bit."  `setBits cs c evs i` rewrites the
slot of every set bit of `evs`, counting bit positions from `i`. -/
def setBits : List Callback → Callback → Nat → Nat → List Callback
  | [], _, _, _ => []
  | x :: rest, c, evs, i => (if evs.testBit i then c else x) :: setBits rest c evs (i + 1)

/-- Registration of a callback value against every bit set in `forEvents`
(see `setBits`). -/
def registerCallback (b : Button) (c : Callback) (forEvents : Event) : Button :=
  { b with callbacks := setBits b.callbacks c forEvents 0 }

/-- `void callback(CallbackSimple callback, Event forEvents)` (src/src/Yabl.h:235). -/
def callbackSimple (b : Button) (id : Nat) (forEvents : Event) : Button :=
  registerCallback b (Callback.simple id) forEvents

/-- `void callback(CallbackWithEventInfo callback, Event forEvents = ALL_EVENTS)`
(src/src/Yabl.h:272). -/
def callbackWithEventInfo (b : Button) (id : Nat) (forEvents : Event) : Button :=
  registerCallback b (Callback.withEventInfo id) forEvents

/-! ## Helper lemmas -/

lemma not_bne_self (x : Bool) : (!x != x) = true := by cases x <;> rfl

lemma bne_not_self (x : Bool) : (x != !x) = true := by cases x <;> rfl

lemma press_from_idle (b : Button) (t : Nat) (hlev : b.prevLevel = b.inverted)
    (hges : b.gestureEvents = 0) (hsup : b.suppressEvents = 0) :
    update b (!b.inverted) t =
      { b with
        prevLevel := !b.inverted
        currentEvents := PRESS
        gestureEvents := PRESS } := by
  simp [update, triggerEvent, hlev, hges, hsup, not_bne_self, Nat.zero_and, Nat.zero_or]

lemma held_quiet (b : Button) (t : Nat) (hlev : b.prevLevel = !b.inverted)
    (ht : t < b.holdDuration) :
    holdPoll b t = { b with currentEvents := 0, prevLevel := !b.inverted } := by
  simp [holdPoll, update, triggerEvent, hlev, not_bne_self, Nat.not_le.mpr ht]

lemma held_quiet_of_hold (b : Button) (t : Nat) (hlev : b.prevLevel = !b.inverted)
    (hh : b.gestureEvents &&& HOLD ≠ 0) :
    holdPoll b t = { b with currentEvents := 0, prevLevel := !b.inverted } := by
  simp [holdPoll, update, triggerEvent, hlev, not_bne_self, hh]

lemma hold_fires (b : Button) (t : Nat) (hlev : b.prevLevel = !b.inverted)
    (hh : b.gestureEvents &&& HOLD = 0) (hsup : b.suppressEvents = 0)
    (ht : b.holdDuration ≤ t) :
    holdPoll b t =
      { b with
        currentEvents := HOLD
        gestureEvents := b.gestureEvents ||| HOLD
        prevLevel := !b.inverted } := by
  simp [holdPoll, update, triggerEvent, hlev, hsup, not_bne_self, hh, ht,
    Nat.zero_and, Nat.zero_or]

lemma release_short (b : Button) (t : Nat) (hlev : b.prevLevel = !b.inverted)
    (hh : b.gestureEvents &&& HOLD = 0) (hsup : b.suppressEvents = 0) :
    releasePoll b t =
      { b with
        currentEvents := RELEASE ||| SHORT_RELEASE
        gestureEvents := b.gestureEvents ||| RELEASE ||| SHORT_RELEASE
        prevLevel := b.inverted } := by
  simp [releasePoll, update, triggerEvent, hlev, hsup, bne_not_self, hh,
    Nat.zero_and, Nat.zero_or]

lemma release_long (b : Button) (t : Nat) (hlev : b.prevLevel = !b.inverted)
    (hh : b.gestureEvents &&& HOLD ≠ 0) (hsup : b.suppressEvents = 0) :
    releasePoll b t =
      { b with
        currentEvents := RELEASE ||| LONG_RELEASE
        gestureEvents := 0
        suppressEvents := 0
        prevLevel := b.inverted } := by
  simp [releasePoll, update, triggerEvent, hlev, hsup, bne_not_self, hh,
    Nat.zero_and, Nat.zero_or]

lemma released_quiet_time (b : Button) (t : Nat) (hlev : b.prevLevel = b.inverted)
    (ht : t < b.doubleTapInterval) :
    releasePoll b t = { b with currentEvents := 0, prevLevel := b.inverted } := by
  simp [releasePoll, update, triggerEvent, hlev, Nat.not_le.mpr ht]

lemma released_quiet_no_short (b : Button) (t : Nat) (hlev : b.prevLevel = b.inverted)
    (hsr : b.gestureEvents &&& SHORT_RELEASE = 0) :
    releasePoll b t = { b with currentEvents := 0, prevLevel := b.inverted } := by
  simp [releasePoll, update, triggerEvent, hlev, hsr]

lemma single_tap_fires (b : Button) (t : Nat) (hlev : b.prevLevel = b.inverted)
    (hsr : b.gestureEvents &&& SHORT_RELEASE ≠ 0) (hsup : b.suppressEvents = 0)
    (ht : b.doubleTapInterval ≤ t) :
    releasePoll b t =
      { b with
        currentEvents := SINGLE_TAP
        gestureEvents := 0
        suppressEvents := 0
        prevLevel := b.inverted } := by
  simp [releasePoll, update, triggerEvent, hlev, hsup, hsr, ht, Nat.zero_and, Nat.zero_or]

lemma press_double_tap (b : Button) (t : Nat) (hlev : b.prevLevel = b.inverted)
    (hsr : b.gestureEvents &&& SHORT_RELEASE ≠ 0) (hsup : b.suppressEvents = 0) :
    update b (!b.inverted) t =
      { b with
        currentEvents := PRESS ||| DOUBLE_TAP
        gestureEvents := b.gestureEvents ||| PRESS ||| DOUBLE_TAP
        prevLevel := !b.inverted } := by
  simp [update, triggerEvent, hlev, hsup, not_bne_self, hsr, Nat.zero_and, Nat.zero_or]


lemma runHeld_after_hold (b : Button) (ts : List Nat) (hlev : b.prevLevel = !b.inverted)
    (hh : b.gestureEvents &&& HOLD ≠ 0) :
    (runHeld b ts).prevLevel = !b.inverted ∧ (runHeld b ts).inverted = b.inverted ∧
    (runHeld b ts).suppressEvents = b.suppressEvents ∧
    (runHeld b ts).holdDuration = b.holdDuration ∧
    (runHeld b ts).doubleTapInterval = b.doubleTapInterval ∧
    (runHeld b ts).gestureEvents = b.gestureEvents := by
  induction ts generalizing b with
  | nil => exact ⟨hlev, rfl, rfl, rfl, rfl, rfl⟩
  | cons t rest ih =>
    have hstep := held_quiet_of_hold b t hlev hh
    have := ih { b with currentEvents := 0, prevLevel := !b.inverted } rfl hh
    simpa [runHeld, hstep] using this

lemma runHeld_gesture (b : Button) (ts : List Nat) (hlev : b.prevLevel = !b.inverted)
    (hges : b.gestureEvents = PRESS) (hsup : b.suppressEvents = 0) :
    (runHeld b ts).prevLevel = !b.inverted ∧ (runHeld b ts).inverted = b.inverted ∧
    (runHeld b ts).suppressEvents = 0 ∧
    (runHeld b ts).holdDuration = b.holdDuration ∧
    (runHeld b ts).doubleTapInterval = b.doubleTapInterval ∧
    (runHeld b ts).gestureEvents =
      (if ∀ u ∈ ts, u < b.holdDuration then PRESS else PRESS ||| HOLD) := by
  induction ts generalizing b with
  | nil => simpa [runHeld, hges] using ⟨hlev, hsup⟩
  | cons t rest ih =>
    by_cases hlt : t < b.holdDuration
    · have hstep := held_quiet b t hlev hlt
      have h2 := ih { b with currentEvents := 0, prevLevel := !b.inverted } rfl hges hsup
      simpa [runHeld, hstep, hlt] using h2
    · have hh0 : b.gestureEvents &&& HOLD = 0 := by rw [hges]; decide
      have hstep := hold_fires b t hlev hh0 hsup (Nat.le_of_not_lt hlt)
      have hh1 : ({ b with
          currentEvents := HOLD
          gestureEvents := b.gestureEvents ||| HOLD
          prevLevel := !b.inverted } : Button).gestureEvents &&& HOLD ≠ 0 := by
        simp [hges]; decide
      have h2 := runHeld_after_hold { b with
          currentEvents := HOLD
          gestureEvents := b.gestureEvents ||| HOLD
          prevLevel := !b.inverted } rest rfl hh1
      simp only [runHeld, List.foldl_cons, hstep] at h2 ⊢
      refine ⟨h2.1, h2.2.1, ?_, h2.2.2.2.1, h2.2.2.2.2.1, ?_⟩
      · simpa [hsup] using h2.2.2.1
      · rw [h2.2.2.2.2.2]
        simp [hges, hlt]

lemma runReleased_quiet (b : Button) (ts : List Nat) (hlev : b.prevLevel = b.inverted)
    (hts : ∀ g ∈ ts, g < b.doubleTapInterval) :
    (runReleased b ts).prevLevel = b.inverted ∧ (runReleased b ts).inverted = b.inverted ∧
    (runReleased b ts).gestureEvents = b.gestureEvents ∧
    (runReleased b ts).suppressEvents = b.suppressEvents ∧
    (runReleased b ts).holdDuration = b.holdDuration ∧
    (runReleased b ts).doubleTapInterval = b.doubleTapInterval := by
  induction ts generalizing b with
  | nil => exact ⟨hlev, rfl, rfl, rfl, rfl, rfl⟩
  | cons g rest ih =>
    have hstep := released_quiet_time b g hlev (hts g (by simp))
    have h2 := ih { b with currentEvents := 0, prevLevel := b.inverted } rfl
      (fun u hu => hts u (by simp [hu]))
    simpa [runReleased, hstep] using h2

lemma runReleased_idle (b : Button) (ts : List Nat) (hlev : b.prevLevel = b.inverted)
    (hsr : b.gestureEvents &&& SHORT_RELEASE = 0) :
    (runReleased b ts).prevLevel = b.inverted ∧ (runReleased b ts).inverted = b.inverted ∧
    (runReleased b ts).gestureEvents = b.gestureEvents ∧
    (runReleased b ts).suppressEvents = b.suppressEvents ∧
    (runReleased b ts).doubleTapInterval = b.doubleTapInterval := by
  induction ts generalizing b with
  | nil => exact ⟨hlev, rfl, rfl, rfl, rfl⟩
  | cons g rest ih =>
    have hstep := released_quiet_no_short b g hlev hsr
    have h2 := ih { b with currentEvents := 0, prevLevel := b.inverted } rfl hsr
    simpa [runReleased, hstep] using h2


lemma triggerEvent_prevLevel (b : Button) (e : Event) :
    (triggerEvent b e).prevLevel = b.prevLevel := by
  unfold triggerEvent; split <;> rfl

lemma triggerEvent_inverted (b : Button) (e : Event) :
    (triggerEvent b e).inverted = b.inverted := by
  unfold triggerEvent; split <;> rfl

lemma triggerEvent_holdDuration (b : Button) (e : Event) :
    (triggerEvent b e).holdDuration = b.holdDuration := by
  unfold triggerEvent; split <;> rfl

lemma triggerEvent_doubleTapInterval (b : Button) (e : Event) :
    (triggerEvent b e).doubleTapInterval = b.doubleTapInterval := by
  unfold triggerEvent; split <;> rfl

lemma update_prevLevel (b : Button) (l : Bool) (t : Nat) :
    (update b l t).prevLevel = l := by
  simp only [update]
  repeat' split
  all_goals simp [triggerEvent_prevLevel]

lemma update_inverted (b : Button) (l : Bool) (t : Nat) :
    (update b l t).inverted = b.inverted := by
  simp only [update]
  repeat' split
  all_goals simp [triggerEvent_inverted]

lemma update_holdDuration (b : Button) (l : Bool) (t : Nat) :
    (update b l t).holdDuration = b.holdDuration := by
  simp only [update]
  repeat' split
  all_goals simp [triggerEvent_holdDuration]

lemma update_doubleTapInterval (b : Button) (l : Bool) (t : Nat) :
    (update b l t).doubleTapInterval = b.doubleTapInterval := by
  simp only [update]
  repeat' split
  all_goals simp [triggerEvent_doubleTapInterval]

lemma land_ne_zero_iff (m n : Nat) :
    m &&& n ≠ 0 ↔ ∃ i, m.testBit i = true ∧ n.testBit i = true := by
  constructor
  · intro h
    obtain ⟨i, hi⟩ := Nat.ne_zero_implies_bit_true h
    rw [Nat.testBit_land] at hi
    exact ⟨i, by simpa using hi⟩
  · rintro ⟨i, h1, h2⟩ h0
    have hb := congrArg (fun x => Nat.testBit x i) h0
    simp [Nat.testBit_land, h1, h2] at hb

lemma setBits_length (cs : List Callback) (c : Callback) (evs k : Nat) :
    (setBits cs c evs k).length = cs.length := by
  induction cs generalizing k with
  | nil => rfl
  | cons x rest ih => simp [setBits, ih]

lemma setBits_getD (cs : List Callback) (c : Callback) (evs k i : Nat)
    (hi : i < cs.length) :
    (setBits cs c evs k).getD i Callback.none =
      if evs.testBit (k + i) then c else cs.getD i Callback.none := by
  induction cs generalizing k i with
  | nil => simp at hi
  | cons x rest ih =>
    cases i with
    | zero => simp [setBits]
    | succ j =>
      have hj : j < rest.length := by simpa using hi
      have := ih (k + 1) j hj
      simpa [setBits, Nat.add_assoc, Nat.add_comm, Nat.add_left_comm] using this

/-! ## Claim theorems (accessors, configuration, reset, callbacks) -/

/-- C9: `activity()` is true iff `currentEvents != 0`; `triggered(mask)` is
true iff some bit of `mask` is set in `currentEvents`; `gestureStarted()` is
true iff `gestureEvents != 0`; `gestureIncludes(mask)` is true iff some bit
of `mask` is set in `gestureEvents`. -/
theorem query_accessors_bitmask_semantics (b : Button) (mask : Event) :
    (activity b = true ↔ b.currentEvents ≠ 0) ∧
    (triggered b mask = true ↔
      ∃ i, b.currentEvents.testBit i = true ∧ mask.testBit i = true) ∧
    (gestureStarted b = true ↔ b.gestureEvents ≠ 0) ∧
    (gestureIncludes b mask = true ↔
      ∃ i, b.gestureEvents.testBit i = true ∧ mask.testBit i = true) := by
  refine ⟨?_, ?_, ?_, ?_⟩
  · simp [activity]
  · simpa [triggered] using land_ne_zero_iff b.currentEvents mask
  · simp [gestureStarted]
  · simpa [gestureIncludes] using land_ne_zero_iff b.gestureEvents mask

/-- C6: `reset()` zeroes `currentEvents`, `gestureEvents` and
`suppressEvents` and leaves the configuration — `inverted`,
`holdDuration`, `doubleTapInterval` and the callback table — unchanged,
for every prior state. -/
theorem reset_clears_events_preserves_config (b : Button) :
    (reset b).currentEvents = 0 ∧ (reset b).gestureEvents = 0 ∧
    (reset b).suppressEvents = 0 ∧ (reset b).inverted = b.inverted ∧
    (reset b).holdDuration = b.holdDuration ∧
    (reset b).doubleTapInterval = b.doubleTapInterval ∧
    (reset b).callbacks = b.callbacks :=
  ⟨rfl, rfl, rfl, rfl, rfl, rfl, rfl⟩

/-- C7: `sleep()` is `reset()`: the header defines
`void sleep() { reset(); }`, so for every state the two produce the same
resulting state. -/
theorem sleep_equals_reset (b : Button) : sleep b = reset b := rfl

/-- C4 counterexample: the duration setters are plain assignments — a zero
(invalid) duration is stored as-is, not clamped to any positive minimum. -/
theorem duration_setters_store_zero_unclamped :
    (setHoldDuration initButton 0).holdDuration = 0 ∧
    (setDoubleTapInterval initButton 0).doubleTapInterval = 0 ∧
    ¬ 1 ≤ (setHoldDuration initButton 0).holdDuration :=
  ⟨rfl, rfl, by decide⟩

/-- C4 amended: the `holdDuration` and `doubleTapInterval` setters store
the given value verbatim (no clamping, no validation) and change nothing
else; being plain total assignments they can never fail. -/
theorem duration_setters_assign_verbatim (b : Button) (ms : Nat) :
    setHoldDuration b ms = { b with holdDuration := ms } ∧
    setDoubleTapInterval b ms = { b with doubleTapInterval := ms } :=
  ⟨rfl, rfl⟩

/-- C5: the callback table keeps one slot per event bit (the table's
length is never changed by a registration and the fresh table has
`EVENT_COUNT` slots); registering a callback value for a mask overwrites
the slot of every bit set in the mask — regardless of which shape was
stored there before — and leaves every other slot untouched, so each
slot holds at most the single most recent registration. -/
theorem callback_slots_one_per_bit_overwrite (b : Button) (c : Callback)
    (evs : Event) (i : Nat) (hi : i < b.callbacks.length) :
    (registerCallback b c evs).callbacks.length = b.callbacks.length ∧
    initButton.callbacks.length = EVENT_COUNT ∧
    (evs.testBit i = true →
      (registerCallback b c evs).callbacks.getD i Callback.none = c) ∧
    (evs.testBit i = false →
      (registerCallback b c evs).callbacks.getD i Callback.none =
        b.callbacks.getD i Callback.none) := by
  have hget := setBits_getD b.callbacks c evs 0 i hi
  refine ⟨setBits_length b.callbacks c evs 0, rfl, ?_, ?_⟩
  · intro h
    simpa [registerCallback, h] using hget
  · intro h
    simpa [registerCallback, h] using hget

/-- C5 witness: registering `simple 7` for mask `0b101` on a fresh button
overwrites slot 2 and leaves slot 1 alone. -/
theorem callback_slots_one_per_bit_overwrite_witness :
    ((registerCallback initButton (Callback.simple 7) 5).callbacks.length =
        initButton.callbacks.length ∧
      initButton.callbacks.length = EVENT_COUNT ∧
      ((5 : Nat).testBit 2 = true →
        (registerCallback initButton (Callback.simple 7) 5).callbacks.getD 2
          Callback.none = Callback.simple 7) ∧
      ((5 : Nat).testBit 2 = false →
        (registerCallback initButton (Callback.simple 7) 5).callbacks.getD 2
          Callback.none = initButton.callbacks.getD 2 Callback.none)) :=
  callback_slots_one_per_bit_overwrite initButton (Callback.simple 7) 5 2 (by decide)

/-- C10: the callback table has `EVENT_COUNT = 16` slots, one per bit of
the 16-bit `Event` type, so the slot index of every single event bit —
including the reserved user-event bits from `0x100` up to bit 15 — is in
bounds of the table. -/
theorem event_count_covers_all_bits (e i : Nat) (he : e < 2 ^ 16)
    (hbit : e = 2 ^ i) :
    EVENT_COUNT = 16 ∧ i < EVENT_COUNT ∧ i < initButton.callbacks.length := by
  have hp : 2 ^ i < 2 ^ 16 := hbit ▸ he
  have hi : i < 16 := (Nat.pow_lt_pow_iff_right (by decide)).mp hp
  have hlen : initButton.callbacks.length = 16 := rfl
  exact ⟨rfl, by simpa [EVENT_COUNT] using hi, by simpa [hlen] using hi⟩

/-- C10 witness: the reserved `USER_EVENT` bit `0x100` maps to slot 8,
inside the table. -/
theorem event_count_covers_all_bits_witness :
    EVENT_COUNT = 16 ∧ 8 < EVENT_COUNT ∧ 8 < initButton.callbacks.length :=
  event_count_covers_all_bits 0x100 8 (by decide) (by decide)


/-- C1: press, wait any times below `holdDuration`, release: the press
cycle fires exactly PRESS, every intermediate held cycle fires nothing,
the release cycle fires exactly RELEASE together with SHORT_RELEASE, the
accumulated gesture is exactly PRESS, RELEASE, SHORT_RELEASE, and neither
HOLD nor LONG_RELEASE ever fired. -/
theorem short_press_cycle_events (b : Button) (ts : List Nat)
    (hlev : b.prevLevel = b.inverted) (hges : b.gestureEvents = 0)
    (hsup : b.suppressEvents = 0) (hts : ∀ t ∈ ts, t < b.holdDuration) :
    (update b (!b.inverted) 0).currentEvents = PRESS ∧
    (∀ pre u post, ts = pre ++ u :: post →
      (holdPoll (runHeld (update b (!b.inverted) 0) pre) u).currentEvents = 0) ∧
    (releasePoll (runHeld (update b (!b.inverted) 0) ts) 0).currentEvents =
      RELEASE ||| SHORT_RELEASE ∧
    (releasePoll (runHeld (update b (!b.inverted) 0) ts) 0).gestureEvents =
      PRESS ||| RELEASE ||| SHORT_RELEASE ∧
    (releasePoll (runHeld (update b (!b.inverted) 0) ts) 0).gestureEvents &&&
      (HOLD ||| LONG_RELEASE) = 0 := by
  have h1 := press_from_idle b 0 hlev hges hsup
  rw [h1]
  set r1 : Button := { b with
    prevLevel := !b.inverted
    currentEvents := PRESS
    gestureEvents := PRESS } with hr1
  have hr1p : r1.prevLevel = !r1.inverted := by rw [hr1]
  have hr1g : r1.gestureEvents = PRESS := by rw [hr1]
  have hr1s : r1.suppressEvents = 0 := by rw [hr1]; exact hsup
  have hr1h : r1.holdDuration = b.holdDuration := by rw [hr1]
  refine ⟨rfl, ?_, ?_⟩
  · intro pre u post hsplit
    have hu : u < b.holdDuration := hts u (by simp [hsplit])
    obtain ⟨hp, hi, hs, hhd, hdti, hge⟩ := runHeld_gesture r1 pre hr1p hr1g hr1s
    have hstep := held_quiet (runHeld r1 pre) u (by rw [hp, hi])
      (by rw [hhd, hr1h]; exact hu)
    rw [hstep]
  · obtain ⟨hp, hi, hs, hhd, hdti, hge⟩ := runHeld_gesture r1 ts hr1p hr1g hr1s
    have hc : ∀ u ∈ ts, u < r1.holdDuration := by
      rw [hr1h]; exact hts
    have hge2 : (runHeld r1 ts).gestureEvents = PRESS := by
      rw [hge, if_pos hc]
    have hstep := release_short (runHeld r1 ts) 0 (by rw [hp, hi])
      (by rw [hge2]; decide) hs
    rw [hstep]
    refine ⟨rfl, ?_, ?_⟩
    · show (runHeld r1 ts).gestureEvents ||| RELEASE ||| SHORT_RELEASE =
        PRESS ||| RELEASE ||| SHORT_RELEASE
      rw [hge2]
    · show ((runHeld r1 ts).gestureEvents ||| RELEASE ||| SHORT_RELEASE) &&&
        (HOLD ||| LONG_RELEASE) = 0
      rw [hge2]; decide

/-- C2: press, then any run of held polls `pre` followed by a held poll at
elapsed time `t`: that poll fires exactly HOLD when it is the first poll
whose elapsed time reaches `holdDuration` (all earlier polls stayed
below), and fires nothing otherwise — so HOLD fires exactly once, on the
first update cycle where the elapsed time reaches the threshold, and
never again while the button stays held. -/
theorem hold_fires_exactly_once (b : Button) (pre : List Nat) (t : Nat)
    (hlev : b.prevLevel = b.inverted) (hges : b.gestureEvents = 0)
    (hsup : b.suppressEvents = 0) :
    (holdPoll (runHeld (update b (!b.inverted) 0) pre) t).currentEvents =
      if b.holdDuration ≤ t ∧ ∀ u ∈ pre, u < b.holdDuration then HOLD else 0 := by
  have h1 := press_from_idle b 0 hlev hges hsup
  rw [h1]
  set r1 : Button := { b with
    prevLevel := !b.inverted
    currentEvents := PRESS
    gestureEvents := PRESS } with hr1
  have hr1p : r1.prevLevel = !r1.inverted := by rw [hr1]
  have hr1g : r1.gestureEvents = PRESS := by rw [hr1]
  have hr1s : r1.suppressEvents = 0 := by rw [hr1]; exact hsup
  have hr1h : r1.holdDuration = b.holdDuration := by rw [hr1]
  obtain ⟨hp, hi, hs, hhd, hdti, hge⟩ := runHeld_gesture r1 pre hr1p hr1g hr1s
  have hhd' : (runHeld r1 pre).holdDuration = b.holdDuration := by rw [hhd, hr1h]
  by_cases hall : ∀ u ∈ pre, u < b.holdDuration
  · have hc : ∀ u ∈ pre, u < r1.holdDuration := by rw [hr1h]; exact hall
    have hge2 : (runHeld r1 pre).gestureEvents = PRESS := by rw [hge, if_pos hc]
    by_cases hht : b.holdDuration ≤ t
    · have hstep := hold_fires (runHeld r1 pre) t (by rw [hp, hi])
        (by rw [hge2]; decide) hs (by rw [hhd']; exact hht)
      rw [hstep, if_pos ⟨hht, hall⟩]
    · have hstep := held_quiet (runHeld r1 pre) t (by rw [hp, hi])
        (by rw [hhd']; exact Nat.lt_of_not_le hht)
      rw [hstep, if_neg (by intro hand; exact hht hand.1)]
  · have hc : ¬ ∀ u ∈ pre, u < r1.holdDuration := by rw [hr1h]; exact hall
    have hge2 : (runHeld r1 pre).gestureEvents &&& HOLD ≠ 0 := by
      rw [hge, if_neg hc]; decide
    have hstep := held_quiet_of_hold (runHeld r1 pre) t (by rw [hp, hi]) hge2
    rw [hstep, if_neg (by intro hand; exact hall hand.2)]


/-- C3: after press, short-held polls, release (RELEASE + SHORT_RELEASE)
and wait polls all inside `doubleTapInterval`: a second press fires
DOUBLE_TAP on its cycle (together with PRESS); instead a released poll at
`g2 ≥ doubleTapInterval` fires exactly SINGLE_TAP, the gesture closes
(`gestureEvents = 0`, `gestureStarted()` false), and every later released
poll fires nothing, so SINGLE_TAP fires exactly once. -/
theorem double_tap_or_single_tap (b : Button) (ts gs : List Nat) (g2 : Nat)
    (hlev : b.prevLevel = b.inverted) (hges : b.gestureEvents = 0)
    (hsup : b.suppressEvents = 0) (hts : ∀ t ∈ ts, t < b.holdDuration)
    (hgs : ∀ g ∈ gs, g < b.doubleTapInterval) (hg2 : b.doubleTapInterval ≤ g2) :
    (update (runReleased (releasePoll (runHeld (update b (!b.inverted) 0) ts) 0) gs)
        (!b.inverted) 0).currentEvents = PRESS ||| DOUBLE_TAP ∧
    (releasePoll (runReleased (releasePoll (runHeld (update b (!b.inverted) 0) ts) 0) gs)
        g2).currentEvents = SINGLE_TAP ∧
    (releasePoll (runReleased (releasePoll (runHeld (update b (!b.inverted) 0) ts) 0) gs)
        g2).gestureEvents = 0 ∧
    gestureStarted (releasePoll
      (runReleased (releasePoll (runHeld (update b (!b.inverted) 0) ts) 0) gs) g2) = false ∧
    ∀ pre2 g3,
      (releasePoll (runReleased (releasePoll
        (runReleased (releasePoll (runHeld (update b (!b.inverted) 0) ts) 0) gs) g2) pre2)
        g3).currentEvents = 0 := by
  have h1 := press_from_idle b 0 hlev hges hsup
  rw [h1]
  set r1 : Button := { b with
    prevLevel := !b.inverted
    currentEvents := PRESS
    gestureEvents := PRESS } with hr1
  have hr1p : r1.prevLevel = !r1.inverted := by rw [hr1]
  have hr1g : r1.gestureEvents = PRESS := by rw [hr1]
  have hr1s : r1.suppressEvents = 0 := by rw [hr1]; exact hsup
  have hr1h : r1.holdDuration = b.holdDuration := by rw [hr1]
  have hr1i : r1.inverted = b.inverted := by rw [hr1]
  have hr1d : r1.doubleTapInterval = b.doubleTapInterval := by rw [hr1]
  obtain ⟨hp, hi, hs, hhd, hdti, hge⟩ := runHeld_gesture r1 ts hr1p hr1g hr1s
  have hgeA : (runHeld r1 ts).gestureEvents = PRESS := by
    rw [hge, if_pos]
    rw [hr1h]; exact hts
  have hstep3 := release_short (runHeld r1 ts) 0 (by rw [hp, hi])
    (by rw [hgeA]; decide) hs
  rw [hstep3]
  set R3 : Button := { runHeld r1 ts with
    currentEvents := RELEASE ||| SHORT_RELEASE
    gestureEvents := (runHeld r1 ts).gestureEvents ||| RELEASE ||| SHORT_RELEASE
    prevLevel := (runHeld r1 ts).inverted } with hR3
  have hR3p : R3.prevLevel = R3.inverted := by rw [hR3]
  have hR3g : R3.gestureEvents = PRESS ||| RELEASE ||| SHORT_RELEASE := by
    rw [hR3]
    show (runHeld r1 ts).gestureEvents ||| RELEASE ||| SHORT_RELEASE =
      PRESS ||| RELEASE ||| SHORT_RELEASE
    rw [hgeA]
  have hR3s : R3.suppressEvents = 0 := by
    rw [hR3]
    show (runHeld r1 ts).suppressEvents = 0
    rw [hs]
  have hR3d : R3.doubleTapInterval = b.doubleTapInterval := by
    rw [hR3]
    show (runHeld r1 ts).doubleTapInterval = b.doubleTapInterval
    rw [hdti, hr1d]
  have hR3i : R3.inverted = b.inverted := by
    rw [hR3]
    show (runHeld r1 ts).inverted = b.inverted
    rw [hi, hr1i]
  obtain ⟨kp, ki, kg, ks, khd, kdti⟩ := runReleased_quiet R3 gs hR3p
    (by intro g hg; rw [hR3d]; exact hgs g hg)
  set s4 : Button := runReleased R3 gs with hs4
  have hlev4 : s4.prevLevel = s4.inverted := by rw [kp, ki]
  have hsr4 : s4.gestureEvents &&& SHORT_RELEASE ≠ 0 := by
    rw [kg, hR3g]; decide
  have hsup4 : s4.suppressEvents = 0 := by rw [ks, hR3s]
  have hinv4 : s4.inverted = b.inverted := by rw [ki, hR3i]
  have hdti4 : s4.doubleTapInterval = b.doubleTapInterval := by rw [kdti, hR3d]
  refine ⟨?_, ?_, ?_, ?_, ?_⟩
  · rw [show (!b.inverted) = (!s4.inverted) from by rw [hinv4]]
    rw [press_double_tap s4 0 hlev4 hsr4 hsup4]
  · rw [single_tap_fires s4 g2 hlev4 hsr4 hsup4 (by rw [hdti4]; exact hg2)]
  · rw [single_tap_fires s4 g2 hlev4 hsr4 hsup4 (by rw [hdti4]; exact hg2)]
  · rw [single_tap_fires s4 g2 hlev4 hsr4 hsup4 (by rw [hdti4]; exact hg2)]
    rfl
  · intro pre2 g3
    rw [single_tap_fires s4 g2 hlev4 hsr4 hsup4 (by rw [hdti4]; exact hg2)]
    set R5 : Button := { s4 with
      currentEvents := SINGLE_TAP
      gestureEvents := 0
      suppressEvents := 0
      prevLevel := s4.inverted } with hR5
    have hR5p : R5.prevLevel = R5.inverted := by rw [hR5]
    have hR5g : R5.gestureEvents &&& SHORT_RELEASE = 0 := by
      rw [hR5]
      show (0 : Event) &&& SHORT_RELEASE = 0
      decide
    obtain ⟨mp, mi, mg, msu, mdti⟩ := runReleased_idle R5 pre2 hR5p hR5g
    have hstep6 := released_quiet_no_short (runReleased R5 pre2) g3 (by rw [mp, mi])
      (by rw [mg]; exact hR5g)
    rw [hstep6]

/-- C8 counterexample: two `update()` calls with no level change between
them (the button stays pressed, raw level low) where the second call
fires HOLD — the hold threshold crossing depends on elapsed time alone,
so the second call's `currentEvents` is not 0. -/
theorem second_update_fires_hold_after_no_level_change :
    (update (update initButton false 0) false 400).currentEvents = HOLD ∧
    HOLD ≠ 0 := by
  exact ⟨by decide, by decide⟩

/-- C8 amended: two `update()` calls with no level change between them
leave `currentEvents = 0` after the second call, unless the second call
itself first crosses a time threshold — while held, elapsed `t2` at or
above `holdDuration` with HOLD not yet in the gesture, or while released,
elapsed `t2` at or above `doubleTapInterval` with SHORT_RELEASE still in
the gesture. -/
theorem second_update_quiet_unless_threshold (b : Button) (level : Bool) (t1 t2 : Nat)
    (hHold : (level != b.inverted) = true →
      (update b level t1).gestureEvents &&& HOLD ≠ 0 ∨ t2 < b.holdDuration)
    (hTap : (level != b.inverted) = false →
      (update b level t1).gestureEvents &&& SHORT_RELEASE = 0 ∨
        t2 < b.doubleTapInterval) :
    (update (update b level t1) level t2).currentEvents = 0 := by
  set s1 := update b level t1 with hs1
  have hprev : s1.prevLevel = level := update_prevLevel b level t1
  have hinv : s1.inverted = b.inverted := update_inverted b level t1
  have hhd : s1.holdDuration = b.holdDuration := update_holdDuration b level t1
  have hdti : s1.doubleTapInterval = b.doubleTapInterval :=
    update_doubleTapInterval b level t1
  by_cases hdn : (level != b.inverted) = true
  · rcases hHold hdn with hg | hlt
    · simp [update, triggerEvent, hprev, hinv, hdn, hg]
    · have hnle : ¬ s1.holdDuration ≤ t2 := by
        rw [hhd]; exact Nat.not_le.mpr hlt
      simp [update, triggerEvent, hprev, hinv, hdn, hnle]
  · have hdn' : (level != b.inverted) = false := by
      simpa using hdn
    rcases hTap hdn' with hg | hlt
    · simp [update, triggerEvent, hprev, hinv, hdn', hg]
    · have hnle : ¬ s1.doubleTapInterval ≤ t2 := by
        rw [hdti]; exact Nat.not_le.mpr hlt
      simp [update, triggerEvent, hprev, hinv, hdn', hnle]

/-- C1 witness: concrete short-press trace on a fresh button with
default configuration (held polls at 100 and 200 ms, both below the
400 ms hold threshold). -/
theorem short_press_cycle_events_witness :
    (update initButton (!initButton.inverted) 0).currentEvents = PRESS ∧
    (holdPoll (runHeld (update initButton (!initButton.inverted) 0) [100])
      200).currentEvents = 0 ∧
    (releasePoll (runHeld (update initButton (!initButton.inverted) 0) [100, 200])
      0).currentEvents = RELEASE ||| SHORT_RELEASE ∧
    (releasePoll (runHeld (update initButton (!initButton.inverted) 0) [100, 200])
      0).gestureEvents = PRESS ||| RELEASE ||| SHORT_RELEASE ∧
    (releasePoll (runHeld (update initButton (!initButton.inverted) 0) [100, 200])
      0).gestureEvents &&& (HOLD ||| LONG_RELEASE) = 0 := by
  have h := short_press_cycle_events initButton [100, 200] rfl rfl rfl (by decide)
  exact ⟨h.1, h.2.1 [100] 200 [] rfl, h.2.2.1, h.2.2.2.1, h.2.2.2.2⟩

/-- C2 witness: on a fresh button, a held poll at 300 ms fires nothing
and the next held poll at 450 ms is the first crossing of the 400 ms
threshold, so it fires exactly HOLD. -/
theorem hold_fires_exactly_once_witness :
    (holdPoll (runHeld (update initButton (!initButton.inverted) 0) [300])
        450).currentEvents = HOLD := by
  have h := hold_fires_exactly_once initButton [300] 450 rfl rfl rfl
  refine h.trans (if_pos ⟨by decide, ?_⟩)
  intro u hu
  rw [List.mem_singleton] at hu
  subst hu
  decide

/-- C3 witness: concrete double-tap and single-tap traces on a fresh
button (short press of 50 ms, wait of 100 ms < 150 ms, second press /
timeout poll at 150 ms ≥ 150 ms, then quiet polls). -/
theorem double_tap_or_single_tap_witness :
    (update (runReleased (releasePoll (runHeld
        (update initButton (!initButton.inverted) 0) [50]) 0) [100])
      (!initButton.inverted) 0).currentEvents = PRESS ||| DOUBLE_TAP ∧
    (releasePoll (runReleased (releasePoll (runHeld
        (update initButton (!initButton.inverted) 0) [50]) 0) [100])
      150).currentEvents = SINGLE_TAP ∧
    (releasePoll (runReleased (releasePoll (runHeld
        (update initButton (!initButton.inverted) 0) [50]) 0) [100])
      150).gestureEvents = 0 ∧
    gestureStarted (releasePoll (runReleased (releasePoll (runHeld
        (update initButton (!initButton.inverted) 0) [50]) 0) [100]) 150) = false ∧
    (releasePoll (runReleased (releasePoll (runReleased (releasePoll (runHeld
        (update initButton (!initButton.inverted) 0) [50]) 0) [100]) 150) [70])
      30).currentEvents = 0 := by
  have h := double_tap_or_single_tap initButton [50] [100] 150 rfl rfl rfl
    (by decide) (by decide) (by decide)
  exact ⟨h.1, h.2.1, h.2.2.1, h.2.2.2.1, h.2.2.2.2 [70] 30⟩

/-- C8 witness: two idle (released) update calls on a fresh button; the
second call crosses no threshold, so its `currentEvents` is 0. -/
theorem second_update_quiet_unless_threshold_witness :
    (update (update initButton true 0) true 1000).currentEvents = 0 :=
  second_update_quiet_unless_threshold initButton true 0 1000
    (fun h => absurd h (by decide)) (fun _ => Or.inl (by decide))

end Yabl
